import Mathlib

/-!
Shallow embedding of the Winkor repository's two headers,
`src/Scripts/ios-elf.h` and `src/Scripts/ios-math-compat.h`, together with
theorems checking the specification's claims about them.

Machine integers are modelled as `Nat`; a C `uint64_t` value is a `Nat`
below `2 ^ 64`, and every operation that can overflow in 64-bit arithmetic
takes an explicit `% 2 ^ 64`.
-/

namespace Winkor

/-! ### Relocation-info helper macros (ios-elf.h, lines 140-142)

`#define ELF64_R_SYM(i)  ((i) >> 32)`
`#define ELF64_R_TYPE(i) ((i) & 0xffffffff)`
`#define ELF64_R_INFO(s,t)  (((s) << 32) + ((t) & 0xffffffff))`

All three operate on `uint64_t` values; the left shift in `ELF64_R_INFO`
wraps modulo `2 ^ 64`, and the addition cannot then carry past `2 ^ 64`
but is reduced modulo `2 ^ 64` as C does. -/

/-- `ELF64_R_SYM(i) = (i) >> 32` on a u64 value. -/
def ELF64_R_SYM (i : Nat) : Nat := i >>> 32

/-- `ELF64_R_TYPE(i) = (i) & 0xffffffff` on a u64 value. -/
def ELF64_R_TYPE (i : Nat) : Nat := i &&& 0xffffffff

/-- `ELF64_R_INFO(s,t) = ((s) << 32) + ((t) & 0xffffffff)` in u64
arithmetic; the whole computation is reduced modulo `2 ^ 64`. -/
def ELF64_R_INFO (s t : Nat) : Nat :=
  ((s <<< 32) + (t &&& 0xffffffff)) % 2 ^ 64

/-! ### Named constants (ios-elf.h, lines 10-84 and 133-137) -/

/-- `ET_NONE` — no file type. -/
def ET_NONE : Nat := 0
/-- `ET_REL` — relocatable file. -/
def ET_REL : Nat := 1
/-- `ET_EXEC` — executable file. -/
def ET_EXEC : Nat := 2
/-- `ET_DYN` — shared object file. -/
def ET_DYN : Nat := 3
/-- `ET_CORE` — core file. -/
def ET_CORE : Nat := 4

/-- `EM_NONE` — no machine. -/
def EM_NONE : Nat := 0
/-- `EM_386` — Intel 80386. -/
def EM_386 : Nat := 3
/-- `EM_X86_64` — AMD x86-64 architecture. -/
def EM_X86_64 : Nat := 62
/-- `EM_AARCH64` — ARM AARCH64. -/
def EM_AARCH64 : Nat := 183

/-- `ELFCLASS32` — 32-bit objects. -/
def ELFCLASS32 : Nat := 1
/-- `ELFCLASS64` — 64-bit objects. -/
def ELFCLASS64 : Nat := 2
/-- `ELFDATA2LSB` — little endian. -/
def ELFDATA2LSB : Nat := 1
/-- `ELFDATA2MSB` — big endian. -/
def ELFDATA2MSB : Nat := 2

/-- `EV_NONE` — invalid version. -/
def EV_NONE : Nat := 0
/-- `EV_CURRENT` — current version. -/
def EV_CURRENT : Nat := 1

/-- `SHT_NULL` — section header table entry unused. -/
def SHT_NULL : Nat := 0
/-- `SHT_PROGBITS` — program data. -/
def SHT_PROGBITS : Nat := 1
/-- `SHT_SYMTAB` — symbol table. -/
def SHT_SYMTAB : Nat := 2
/-- `SHT_STRTAB` — string table. -/
def SHT_STRTAB : Nat := 3
/-- `SHT_RELA` — relocation entries with addends. -/
def SHT_RELA : Nat := 4
/-- `SHT_HASH` — symbol hash table. -/
def SHT_HASH : Nat := 5
/-- `SHT_DYNAMIC` — dynamic linking information. -/
def SHT_DYNAMIC : Nat := 6
/-- `SHT_NOTE` — notes. -/
def SHT_NOTE : Nat := 7
/-- `SHT_NOBITS` — program space with no data (bss). -/
def SHT_NOBITS : Nat := 8
/-- `SHT_REL` — relocation entries, no addends. -/
def SHT_REL : Nat := 9
/-- `SHT_SHLIB` — reserved. -/
def SHT_SHLIB : Nat := 10
/-- `SHT_DYNSYM` — dynamic linker symbol table. -/
def SHT_DYNSYM : Nat := 11

/-- `SHF_WRITE` — writable section flag. -/
def SHF_WRITE : Nat := 0x1
/-- `SHF_ALLOC` — occupies memory during execution. -/
def SHF_ALLOC : Nat := 0x2
/-- `SHF_EXECINSTR` — executable section flag. -/
def SHF_EXECINSTR : Nat := 0x4
/-- `SHF_MASKPROC` — processor-specific mask. -/
def SHF_MASKPROC : Nat := 0xf0000000

/-- `STB_LOCAL` — local symbol. -/
def STB_LOCAL : Nat := 0
/-- `STB_GLOBAL` — global symbol. -/
def STB_GLOBAL : Nat := 1
/-- `STB_WEAK` — weak symbol. -/
def STB_WEAK : Nat := 2
/-- `STB_NUM` — number of defined binding types. -/
def STB_NUM : Nat := 3

/-- `STT_NOTYPE` — symbol type is unspecified. -/
def STT_NOTYPE : Nat := 0
/-- `STT_OBJECT` — symbol is a data object. -/
def STT_OBJECT : Nat := 1
/-- `STT_FUNC` — symbol is a code object. -/
def STT_FUNC : Nat := 2
/-- `STT_SECTION` — symbol associated with a section. -/
def STT_SECTION : Nat := 3
/-- `STT_FILE` — symbol's name is file name. -/
def STT_FILE : Nat := 4
/-- `STT_COMMON` — symbol is a common data object. -/
def STT_COMMON : Nat := 5
/-- `STT_TLS` — symbol is thread-local data object. -/
def STT_TLS : Nat := 6
/-- `STT_NUM` — number of defined symbol types. -/
def STT_NUM : Nat := 7

/-- `R_X86_64_NONE` — no reloc. -/
def R_X86_64_NONE : Nat := 0
/-- `R_X86_64_64` — direct 64 bit. -/
def R_X86_64_64 : Nat := 1
/-- `R_X86_64_PC32` — PC relative 32 bit signed (ios-elf.h line 72). -/
def R_X86_64_PC32 : Nat := 2
/-- `R_X86_64_GOT32` — 32 bit GOT entry. -/
def R_X86_64_GOT32 : Nat := 3
/-- `R_X86_64_PLT32` — 32 bit PLT address. -/
def R_X86_64_PLT32 : Nat := 4
/-- `R_X86_64_COPY` — copy symbol at runtime. -/
def R_X86_64_COPY : Nat := 5
/-- `R_X86_64_GLOB_DAT` — create GOT entry. -/
def R_X86_64_GLOB_DAT : Nat := 6
/-- `R_X86_64_JUMP_SLOT` — create PLT entry. -/
def R_X86_64_JUMP_SLOT : Nat := 7
/-- `R_X86_64_RELATIVE` — adjust by program base. -/
def R_X86_64_RELATIVE : Nat := 8
/-- `R_X86_64_32` — direct 32 bit. -/
def R_X86_64_32 : Nat := 9
/-- `R_X86_64_32S` — direct 32 bit sign extended. -/
def R_X86_64_32S : Nat := 10
/-- `R_X86_64_16` — direct 16 bit. -/
def R_X86_64_16 : Nat := 11
/-- `R_X86_64_PC16` — 16 bit sign extended pc relative. -/
def R_X86_64_PC16 : Nat := 12
/-- `R_X86_64_8` — direct 8 bit. -/
def R_X86_64_8 : Nat := 13
/-- `R_X86_64_PC8` — 8 bit sign extended pc relative. -/
def R_X86_64_PC8 : Nat := 14

/-- `EI_NIDENT` — size of the identification array. -/
def EI_NIDENT : Nat := 16
/-- `ELFMAG0` — first magic byte, `0x7f`. -/
def ELFMAG0 : Nat := 0x7f
/-- `ELFMAG1` — second magic byte, the character code of `E`. -/
def ELFMAG1 : Nat := Char.toNat 'E'
/-- `ELFMAG2` — third magic byte, the character code of `L`. -/
def ELFMAG2 : Nat := Char.toNat 'L'
/-- `ELFMAG3` — fourth magic byte, the character code of `F`. -/
def ELFMAG3 : Nat := Char.toNat 'F'

lemma and_mask32 (x : Nat) : x &&& 0xffffffff = x % 2 ^ 32 := by
  rw [show (0xffffffff : Nat) = 2 ^ 32 - 1 from rfl,
    Nat.and_pow_two_sub_one_eq_mod]

/-- C1: packing the extracted symbol index and extracted relocation type of
any u64 value `v` reconstructs `v` exactly:
`ELF64_R_INFO(ELF64_R_SYM(v), ELF64_R_TYPE(v)) == v`. -/
theorem rinfo_roundtrip (v : Nat) (hv : v < 2 ^ 64) :
    ELF64_R_INFO (ELF64_R_SYM v) (ELF64_R_TYPE v) = v := by
  unfold ELF64_R_INFO ELF64_R_SYM ELF64_R_TYPE
  simp only [and_mask32, Nat.shiftLeft_eq, Nat.shiftRight_eq_div_pow]
  omega

/-- Witness for C1 at the concrete u64 value `21474836482`. -/
theorem rinfo_roundtrip_witness :
    (21474836482 : Nat) < 2 ^ 64 ∧
    ELF64_R_INFO (ELF64_R_SYM 21474836482) (ELF64_R_TYPE 21474836482) =
      21474836482 :=
  ⟨by decide, rinfo_roundtrip 21474836482 (by decide)⟩

/-- C2: `ELF64_R_INFO(s, t)` in 64-bit modular arithmetic equals
`(s << 32) | (t & 0xffffffff)`, and a symbol index not fitting in 32 bits
is silently truncated to its low 32 bits. -/
theorem rinfo_or_and_truncation (s t : Nat) :
    ELF64_R_INFO s t = ((s <<< 32) % 2 ^ 64) ||| (t &&& 0xffffffff) ∧
    ELF64_R_INFO s t = ELF64_R_INFO (s % 2 ^ 32) t := by
  unfold ELF64_R_INFO
  simp only [and_mask32, Nat.shiftLeft_eq]
  refine ⟨?_, by omega⟩
  have e1 : (s * 2 ^ 32) % 2 ^ 64 = 2 ^ 32 * (s % 2 ^ 32) := by
    rw [show (2 : Nat) ^ 64 = 2 ^ 32 * 2 ^ 32 from by norm_num,
      Nat.mul_comm s, Nat.mul_mod_mul_left]
  have e2 : 2 ^ 32 * (s % 2 ^ 32) + t % 2 ^ 32 =
      2 ^ 32 * (s % 2 ^ 32) ||| t % 2 ^ 32 :=
    Nat.mul_add_lt_is_or (Nat.mod_lt _ (by norm_num)) _
  rw [e1, ← e2]
  omega

/-- C3: extracting after packing recovers the masked inputs:
`ELF64_R_SYM(ELF64_R_INFO(s, t)) == s & 0xffffffff` and
`ELF64_R_TYPE(ELF64_R_INFO(s, t)) == t & 0xffffffff`. -/
theorem extract_after_pack (s t : Nat) :
    ELF64_R_SYM (ELF64_R_INFO s t) = s &&& 0xffffffff ∧
    ELF64_R_TYPE (ELF64_R_INFO s t) = t &&& 0xffffffff := by
  unfold ELF64_R_SYM ELF64_R_TYPE ELF64_R_INFO
  simp only [and_mask32, Nat.shiftLeft_eq, Nat.shiftRight_eq_div_pow]
  omega

/-- C7: packing symbol index 5 with relocation type `R_X86_64_PC32` (= 2)
yields `21474836482`, and extraction from `21474836482` returns symbol
index 5 and type 2. -/
theorem pack_concrete :
    R_X86_64_PC32 = 2 ∧
    ELF64_R_INFO 5 R_X86_64_PC32 = 21474836482 ∧
    ELF64_R_SYM 21474836482 = 5 ∧
    ELF64_R_TYPE 21474836482 = 2 := by
  decide

/-- C9: for every u64 `info`, both extraction results fit in 32 bits. -/
theorem extract_fits (i : Nat) (hi : i < 2 ^ 64) :
    ELF64_R_SYM i < 2 ^ 32 ∧ ELF64_R_TYPE i < 2 ^ 32 := by
  unfold ELF64_R_SYM ELF64_R_TYPE
  simp only [and_mask32, Nat.shiftRight_eq_div_pow]
  omega

/-- Witness for C9 at the concrete u64 value `21474836482`. -/
theorem extract_fits_witness :
    (21474836482 : Nat) < 2 ^ 64 ∧
    (ELF64_R_SYM 21474836482 < 2 ^ 32 ∧ ELF64_R_TYPE 21474836482 < 2 ^ 32) :=
  ⟨by decide, extract_fits 21474836482 (by decide)⟩

/-! ### Record layouts (ios-elf.h, lines 87-130)

The four structs are embedded as Lean structures with one field per C
field, in declaration order, and a little-endian byte serializer whose
chunk widths are the declared C field widths.  C struct layout under the
target ABI is modelled separately by `layoutOffsets` / `sizeofStruct`,
which place each field at the next offset aligned to the field's natural
alignment and round the total size up to the struct's alignment. -/

/-- `w` little-endian bytes of `v` (low byte first). -/
def bytesLE : Nat → Nat → List Nat
  | 0, _ => []
  | w + 1, v => v % 256 :: bytesLE w (v / 256)

/-- Eight little-endian bytes of a signed 64-bit value, two's complement. -/
def bytesLEInt (v : Int) : List Nat := bytesLE 8 (v.emod (2 ^ 64)).toNat

lemma bytesLE_length (w v : Nat) : (bytesLE w v).length = w := by
  induction w generalizing v with
  | zero => rfl
  | succ n ih => simp [bytesLE, ih]

/-- `Elf64_Ehdr` — the ELF file header (ios-elf.h lines 87-102). -/
structure Elf64_Ehdr where
  e_ident : Fin 16 → Nat
  e_type : Nat
  e_machine : Nat
  e_version : Nat
  e_entry : Nat
  e_phoff : Nat
  e_shoff : Nat
  e_flags : Nat
  e_ehsize : Nat
  e_phentsize : Nat
  e_phnum : Nat
  e_shentsize : Nat
  e_shnum : Nat
  e_shstrndx : Nat

/-- `Elf64_Shdr` — the ELF section header (ios-elf.h lines 104-115). -/
structure Elf64_Shdr where
  sh_name : Nat
  sh_type : Nat
  sh_flags : Nat
  sh_addr : Nat
  sh_offset : Nat
  sh_size : Nat
  sh_link : Nat
  sh_info : Nat
  sh_addralign : Nat
  sh_entsize : Nat

/-- `Elf64_Sym` — the ELF symbol table entry (ios-elf.h lines 117-124). -/
structure Elf64_Sym where
  st_name : Nat
  st_info : Nat
  st_other : Nat
  st_shndx : Nat
  st_value : Nat
  st_size : Nat

/-- `Elf64_Rela` — relocation with addend (ios-elf.h lines 126-130). -/
structure Elf64_Rela where
  r_offset : Nat
  r_info : Nat
  r_addend : Int

/-- Serialize `Elf64_Ehdr` in declared field order with declared widths:
16-byte ident array, then u16, u16, u32, u64, u64, u64, u32 and six u16. -/
def serializeEhdr (h : Elf64_Ehdr) : List Nat :=
  List.ofFn h.e_ident ++ bytesLE 2 h.e_type ++ bytesLE 2 h.e_machine ++
  bytesLE 4 h.e_version ++ bytesLE 8 h.e_entry ++ bytesLE 8 h.e_phoff ++
  bytesLE 8 h.e_shoff ++ bytesLE 4 h.e_flags ++ bytesLE 2 h.e_ehsize ++
  bytesLE 2 h.e_phentsize ++ bytesLE 2 h.e_phnum ++
  bytesLE 2 h.e_shentsize ++ bytesLE 2 h.e_shnum ++ bytesLE 2 h.e_shstrndx

/-- Serialize `Elf64_Shdr` in declared field order with declared widths:
u32, u32, u64, u64, u64, u64, u32, u32, u64, u64. -/
def serializeShdr (s : Elf64_Shdr) : List Nat :=
  bytesLE 4 s.sh_name ++ bytesLE 4 s.sh_type ++ bytesLE 8 s.sh_flags ++
  bytesLE 8 s.sh_addr ++ bytesLE 8 s.sh_offset ++ bytesLE 8 s.sh_size ++
  bytesLE 4 s.sh_link ++ bytesLE 4 s.sh_info ++
  bytesLE 8 s.sh_addralign ++ bytesLE 8 s.sh_entsize

/-- Serialize `Elf64_Sym` in declared field order with declared widths:
u32, byte, byte, u16, u64, u64. -/
def serializeSym (y : Elf64_Sym) : List Nat :=
  bytesLE 4 y.st_name ++ bytesLE 1 y.st_info ++ bytesLE 1 y.st_other ++
  bytesLE 2 y.st_shndx ++ bytesLE 8 y.st_value ++ bytesLE 8 y.st_size

/-- Serialize `Elf64_Rela` in declared field order with declared widths:
u64, u64, i64. -/
def serializeRela (r : Elf64_Rela) : List Nat :=
  bytesLE 8 r.r_offset ++ bytesLE 8 r.r_info ++ bytesLEInt r.r_addend

/-- Round `off` up to the next multiple of the alignment `a`. -/
def alignTo (off a : Nat) : Nat :=
  if a = 0 then off else (off + a - 1) / a * a

/-- C struct layout: each field, given as a `(size, alignment)` pair, is
placed at the next offset aligned to its alignment. -/
def layoutOffsets : Nat → List (Nat × Nat) → List Nat
  | _, [] => []
  | off, (sz, al) :: rest =>
      alignTo off al :: layoutOffsets (alignTo off al + sz) rest

/-- The offset just past the last field under C layout. -/
def layoutEnd : Nat → List (Nat × Nat) → Nat
  | off, [] => off
  | off, (sz, al) :: rest => layoutEnd (alignTo off al + sz) rest

/-- The struct's alignment: the maximum field alignment. -/
def maxAlign (fs : List (Nat × Nat)) : Nat :=
  fs.foldr (fun p m => max p.2 m) 1

/-- `sizeof` of the struct under C layout: the end offset rounded up to
the struct's alignment. -/
def sizeofStruct (fs : List (Nat × Nat)) : Nat :=
  alignTo (layoutEnd 0 fs) (maxAlign fs)

/-- Packed (padding-free) offsets: each field directly after its
predecessor, ignoring alignment. -/
def packedOffsets : Nat → List (Nat × Nat) → List Nat
  | _, [] => []
  | off, (sz, _) :: rest => off :: packedOffsets (off + sz) rest

/-- `(size, alignment)` of each `Elf64_Ehdr` field in declared order; the
ident field is an array of 16 one-byte elements. -/
def ehdrFields : List (Nat × Nat) :=
  [(16, 1), (2, 2), (2, 2), (4, 4), (8, 8), (8, 8), (8, 8), (4, 4),
   (2, 2), (2, 2), (2, 2), (2, 2), (2, 2), (2, 2)]

/-- `(size, alignment)` of each `Elf64_Shdr` field in declared order. -/
def shdrFields : List (Nat × Nat) :=
  [(4, 4), (4, 4), (8, 8), (8, 8), (8, 8), (8, 8), (4, 4), (4, 4),
   (8, 8), (8, 8)]

/-- `(size, alignment)` of each `Elf64_Sym` field in declared order. -/
def symFields : List (Nat × Nat) :=
  [(4, 4), (1, 1), (1, 1), (2, 2), (8, 8), (8, 8)]

/-- `(size, alignment)` of each `Elf64_Rela` field in declared order. -/
def relaFields : List (Nat × Nat) :=
  [(8, 8), (8, 8), (8, 8)]

/-- C4: each record serializes to exactly its documented total size
(Ehdr 64, Shdr 64, Sym 24, Rela 24 bytes); under C alignment the field
offsets coincide with the packed cumulative offsets (no padding) and the
struct sizes equal the serialized sizes; and every serialized field sits
at the byte offset determined by the declared order and widths. -/
theorem record_layouts :
    (∀ h : Elf64_Ehdr, (serializeEhdr h).length = 64) ∧
    (∀ s : Elf64_Shdr, (serializeShdr s).length = 64) ∧
    (∀ y : Elf64_Sym, (serializeSym y).length = 24) ∧
    (∀ r : Elf64_Rela, (serializeRela r).length = 24) ∧
    (layoutOffsets 0 ehdrFields = packedOffsets 0 ehdrFields ∧
      layoutOffsets 0 ehdrFields =
        [0, 16, 18, 20, 24, 32, 40, 48, 52, 54, 56, 58, 60, 62] ∧
      sizeofStruct ehdrFields = 64) ∧
    (layoutOffsets 0 shdrFields = packedOffsets 0 shdrFields ∧
      layoutOffsets 0 shdrFields = [0, 4, 8, 16, 24, 32, 40, 44, 48, 56] ∧
      sizeofStruct shdrFields = 64) ∧
    (layoutOffsets 0 symFields = packedOffsets 0 symFields ∧
      layoutOffsets 0 symFields = [0, 4, 5, 6, 8, 16] ∧
      sizeofStruct symFields = 24) ∧
    (layoutOffsets 0 relaFields = packedOffsets 0 relaFields ∧
      layoutOffsets 0 relaFields = [0, 8, 16] ∧
      sizeofStruct relaFields = 24) ∧
    (∀ h : Elf64_Ehdr,
      ((serializeEhdr h).drop 0).take 16 = List.ofFn h.e_ident ∧
      ((serializeEhdr h).drop 16).take 2 = bytesLE 2 h.e_type ∧
      ((serializeEhdr h).drop 18).take 2 = bytesLE 2 h.e_machine ∧
      ((serializeEhdr h).drop 20).take 4 = bytesLE 4 h.e_version ∧
      ((serializeEhdr h).drop 24).take 8 = bytesLE 8 h.e_entry ∧
      ((serializeEhdr h).drop 32).take 8 = bytesLE 8 h.e_phoff ∧
      ((serializeEhdr h).drop 40).take 8 = bytesLE 8 h.e_shoff ∧
      ((serializeEhdr h).drop 48).take 4 = bytesLE 4 h.e_flags ∧
      ((serializeEhdr h).drop 52).take 2 = bytesLE 2 h.e_ehsize ∧
      ((serializeEhdr h).drop 54).take 2 = bytesLE 2 h.e_phentsize ∧
      ((serializeEhdr h).drop 56).take 2 = bytesLE 2 h.e_phnum ∧
      ((serializeEhdr h).drop 58).take 2 = bytesLE 2 h.e_shentsize ∧
      ((serializeEhdr h).drop 60).take 2 = bytesLE 2 h.e_shnum ∧
      ((serializeEhdr h).drop 62).take 2 = bytesLE 2 h.e_shstrndx) ∧
    (∀ s : Elf64_Shdr,
      ((serializeShdr s).drop 0).take 4 = bytesLE 4 s.sh_name ∧
      ((serializeShdr s).drop 4).take 4 = bytesLE 4 s.sh_type ∧
      ((serializeShdr s).drop 8).take 8 = bytesLE 8 s.sh_flags ∧
      ((serializeShdr s).drop 16).take 8 = bytesLE 8 s.sh_addr ∧
      ((serializeShdr s).drop 24).take 8 = bytesLE 8 s.sh_offset ∧
      ((serializeShdr s).drop 32).take 8 = bytesLE 8 s.sh_size ∧
      ((serializeShdr s).drop 40).take 4 = bytesLE 4 s.sh_link ∧
      ((serializeShdr s).drop 44).take 4 = bytesLE 4 s.sh_info ∧
      ((serializeShdr s).drop 48).take 8 = bytesLE 8 s.sh_addralign ∧
      ((serializeShdr s).drop 56).take 8 = bytesLE 8 s.sh_entsize) ∧
    (∀ y : Elf64_Sym,
      ((serializeSym y).drop 0).take 4 = bytesLE 4 y.st_name ∧
      ((serializeSym y).drop 4).take 1 = bytesLE 1 y.st_info ∧
      ((serializeSym y).drop 5).take 1 = bytesLE 1 y.st_other ∧
      ((serializeSym y).drop 6).take 2 = bytesLE 2 y.st_shndx ∧
      ((serializeSym y).drop 8).take 8 = bytesLE 8 y.st_value ∧
      ((serializeSym y).drop 16).take 8 = bytesLE 8 y.st_size) ∧
    (∀ r : Elf64_Rela,
      ((serializeRela r).drop 0).take 8 = bytesLE 8 r.r_offset ∧
      ((serializeRela r).drop 8).take 8 = bytesLE 8 r.r_info ∧
      ((serializeRela r).drop 16).take 8 = bytesLEInt r.r_addend) := by
  refine ⟨?_, ?_, ?_, ?_, by decide, by decide, by decide, by decide,
    ?_, ?_, ?_, ?_⟩
  · intro h; simp [serializeEhdr, bytesLE_length]
  · intro s; simp [serializeShdr, bytesLE_length]
  · intro y; simp [serializeSym, bytesLE_length]
  · intro r; simp [serializeRela, bytesLEInt, bytesLE_length]
  · intro h
    refine ⟨?_, ?_, ?_, ?_, ?_, ?_, ?_, ?_, ?_, ?_, ?_, ?_, ?_, ?_⟩ <;>
      simp [serializeEhdr, bytesLE, List.ofFn_succ]
  · intro s
    refine ⟨?_, ?_, ?_, ?_, ?_, ?_, ?_, ?_, ?_, ?_⟩ <;>
      simp [serializeShdr, bytesLE]
  · intro y
    refine ⟨?_, ?_, ?_, ?_, ?_, ?_⟩ <;> simp [serializeSym, bytesLE]
  · intro r
    refine ⟨?_, ?_, ?_⟩ <;> simp [serializeRela, bytesLEInt, bytesLE]

/-- C5: every constant named in the spec's table has exactly the listed
numeric value. -/
theorem constant_table_values :
    (ET_NONE = 0 ∧ ET_REL = 1 ∧ ET_EXEC = 2 ∧ ET_DYN = 3 ∧ ET_CORE = 4) ∧
    (EM_NONE = 0 ∧ EM_386 = 3 ∧ EM_X86_64 = 62 ∧ EM_AARCH64 = 183) ∧
    (ELFCLASS32 = 1 ∧ ELFCLASS64 = 2) ∧
    (ELFDATA2LSB = 1 ∧ ELFDATA2MSB = 2) ∧
    (EV_NONE = 0 ∧ EV_CURRENT = 1) ∧
    (SHT_NULL = 0 ∧ SHT_PROGBITS = 1 ∧ SHT_SYMTAB = 2 ∧ SHT_STRTAB = 3 ∧
      SHT_RELA = 4 ∧ SHT_HASH = 5 ∧ SHT_DYNAMIC = 6 ∧ SHT_NOTE = 7 ∧
      SHT_NOBITS = 8 ∧ SHT_REL = 9 ∧ SHT_SHLIB = 10 ∧ SHT_DYNSYM = 11) ∧
    (SHF_WRITE = 0x1 ∧ SHF_ALLOC = 0x2 ∧ SHF_EXECINSTR = 0x4 ∧
      SHF_MASKPROC = 0xf0000000) ∧
    (STB_LOCAL = 0 ∧ STB_GLOBAL = 1 ∧ STB_WEAK = 2) ∧
    (STT_NOTYPE = 0 ∧ STT_OBJECT = 1 ∧ STT_FUNC = 2 ∧ STT_SECTION = 3 ∧
      STT_FILE = 4 ∧ STT_COMMON = 5 ∧ STT_TLS = 6) ∧
    (R_X86_64_NONE = 0 ∧ R_X86_64_64 = 1 ∧ R_X86_64_PC32 = 2 ∧
      R_X86_64_GOT32 = 3 ∧ R_X86_64_PLT32 = 4 ∧ R_X86_64_COPY = 5 ∧
      R_X86_64_GLOB_DAT = 6 ∧ R_X86_64_JUMP_SLOT = 7 ∧
      R_X86_64_RELATIVE = 8 ∧ R_X86_64_32 = 9 ∧ R_X86_64_32S = 10 ∧
      R_X86_64_16 = 11 ∧ R_X86_64_PC16 = 12 ∧ R_X86_64_8 = 13 ∧
      R_X86_64_PC8 = 14) := by
  decide

/-! ### Float classification shim (ios-math-compat.h, lines 50-58)

On `__arm64__` the header defines
`ios_isnanf(x)`:  reinterpret the float as its 32-bit pattern `i` and
return `(i & 0x7fffffff) > 0x7f800000`;
`ios_isinff(x)`:  return `(i & 0x7fffffff) == 0x7f800000`.
We model both directly on the 32-bit pattern. -/

/-- `ios_isnanf` on the 32-bit pattern of its float argument. -/
def ios_isnanf (b : Nat) : Bool := decide (0x7f800000 < (b &&& 0x7fffffff))

/-- `ios_isinff` on the 32-bit pattern of its float argument. -/
def ios_isinff (b : Nat) : Bool := decide ((b &&& 0x7fffffff) = 0x7f800000)

/-- C6: on ARM64, `ios_isnanf` is true iff the sign-masked pattern exceeds
`0x7f800000` and `ios_isinff` iff it equals `0x7f800000`; pattern
`0x7f800000` is infinite and not NaN, `0x7fc00000` is NaN and not
infinite, and `0x3f800000` is neither. -/
theorem float_bit_classification (b : Nat) (hb : b < 2 ^ 32) :
    ((ios_isnanf b = true ↔ 0x7f800000 < (b &&& 0x7fffffff)) ∧
      (ios_isinff b = true ↔ (b &&& 0x7fffffff) = 0x7f800000)) ∧
    (ios_isinff 0x7f800000 = true ∧ ios_isnanf 0x7f800000 = false) ∧
    (ios_isnanf 0x7fc00000 = true ∧ ios_isinff 0x7fc00000 = false) ∧
    (ios_isnanf 0x3f800000 = false ∧ ios_isinff 0x3f800000 = false) := by
  refine ⟨⟨?_, ?_⟩, by decide, by decide, by decide⟩
  · simp [ios_isnanf]
  · simp [ios_isinff]

/-- Witness for C6 at bit pattern `0x7fc00000`. -/
theorem float_bit_classification_witness :
    (0x7fc00000 : Nat) < 2 ^ 32 ∧
    (((ios_isnanf 0x7fc00000 = true ↔
        0x7f800000 < ((0x7fc00000 : Nat) &&& 0x7fffffff)) ∧
      (ios_isinff 0x7fc00000 = true ↔
        ((0x7fc00000 : Nat) &&& 0x7fffffff) = 0x7f800000)) ∧
    (ios_isinff 0x7f800000 = true ∧ ios_isnanf 0x7f800000 = false) ∧
    (ios_isnanf 0x7fc00000 = true ∧ ios_isinff 0x7fc00000 = false) ∧
    (ios_isnanf 0x3f800000 = false ∧ ios_isinff 0x3f800000 = false)) :=
  ⟨by decide, float_bit_classification 0x7fc00000 (by decide)⟩

/-- C10: `ios_isnanf` and `ios_isinff` are never both true on the same
32-bit pattern. -/
theorem nan_inf_exclusive (b : Nat) (hb : b < 2 ^ 32) :
    ¬(ios_isnanf b = true ∧ ios_isinff b = true) := by
  simp only [ios_isnanf, ios_isinff, decide_eq_true_eq]
  omega

/-- Witness for C10 at bit pattern `0x7f800000`. -/
theorem nan_inf_exclusive_witness :
    (0x7f800000 : Nat) < 2 ^ 32 ∧
    ¬(ios_isnanf 0x7f800000 = true ∧ ios_isinff 0x7f800000 = true) :=
  ⟨by decide, nan_inf_exclusive 0x7f800000 (by decide)⟩

/-- Modelled from the spec: the identification-byte check on a FileHeader
byte buffer. The source header defines only the magic constants
`ELFMAG0..ELFMAG3` (ios-elf.h lines 134-137); the spec says a buffer is
recognized as ELF-tagged iff its bytes 0-3 equal those four constants. -/
def elfMagicCheck (buf : List Nat) : Bool :=
  match buf with
  | b0 :: b1 :: b2 :: b3 :: _ =>
      b0 == ELFMAG0 && b1 == ELFMAG1 && b2 == ELFMAG2 && b3 == ELFMAG3
  | _ => false

/-- C8: the magic constants are `0x7f`, `0x45`, `0x4c`, `0x46`, and the
identification-byte check accepts a buffer iff its first four bytes are
exactly that sequence. -/
theorem magic_byte_check (buf : List Nat) :
    (ELFMAG0 = 0x7f ∧ ELFMAG1 = 0x45 ∧ ELFMAG2 = 0x4c ∧ ELFMAG3 = 0x46) ∧
    (elfMagicCheck buf = true ↔
      buf.take 4 = [0x7f, 0x45, 0x4c, 0x46]) := by
  refine ⟨by decide, ?_⟩
  match buf with
  | [] => simp [elfMagicCheck]
  | [b0] => simp [elfMagicCheck]
  | [b0, b1] => simp [elfMagicCheck]
  | [b0, b1, b2] => simp [elfMagicCheck]
  | b0 :: b1 :: b2 :: b3 :: rest =>
      simp [elfMagicCheck, ELFMAG0, ELFMAG1, ELFMAG2, ELFMAG3, and_assoc]

end Winkor
